import Mathlib

/-!
Verification of `streamlit_app.py`, the Streamlit front-end of the trading
assistant.  The file embeds the data model (query records with Python-style
response dictionaries), the render logic of the three tabs, the cached
backend initializer and the JSON export, and proves the specified properties
about them.
-/

namespace TradingApp

/-- Python-style values as they occur in the response dictionaries the
backend returns (`ResponseObject` in the spec). -/
inductive PyVal where
  | pynone
  | pybool (b : Bool)
  | pynum (q : ℚ)
  | pystr (s : String)
  | pylist (xs : List PyVal)
  | pydict (kvs : List (String × PyVal))

/-- Python truthiness (`bool(v)`): `None`, `False`, `0`, `""`, `[]`, and
an empty dict are falsy, everything else truthy. -/
def truthy : PyVal → Bool
  | .pynone => false
  | .pybool b => b
  | .pynum q => decide (q ≠ 0)
  | .pystr s => !s.isEmpty
  | .pylist xs => !xs.isEmpty
  | .pydict kvs => !kvs.isEmpty

/-- A response dictionary: association list from string keys to values. -/
abbrev Resp := List (String × PyVal)

/-- Raw dictionary lookup (`k in d` / position of a key). -/
def dictFind (r : Resp) (k : String) : Option PyVal :=
  (r.find? (fun kv => kv.1 == k)).map (fun kv => kv.2)

/-- Python `d.get(k)`: the value at `k`, or `None` when `k` is absent. -/
def pyGet (r : Resp) (k : String) : PyVal :=
  (dictFind r k).getD .pynone

/-- Python `d.get(k, default)`. -/
def pyGetD (r : Resp) (k : String) (d : PyVal) : PyVal :=
  (dictFind r k).getD d

/-- Python `d[k]`: raises `KeyError` when `k` is absent.  Exceptions are
modelled as `Except String`. -/
def getItem (r : Resp) (k : String) : Except String PyVal :=
  match dictFind r k with
  | some v => .ok v
  | none => .error ("KeyError: " ++ k)

/-- Python `v.get(k)` on a value expected to be a dict: raises `AttributeError`
when `v` is not a dict. -/
def valGet (v : PyVal) (k : String) : Except String PyVal :=
  match v with
  | .pydict kvs => .ok (pyGet kvs k)
  | _ => .error "AttributeError: get"

/-- Treat a value as a Python number, as `sum(...)`/arithmetic does;
raises `TypeError` otherwise. -/
def asNum (v : PyVal) : Except String ℚ :=
  match v with
  | .pynum q => .ok q
  | .pybool b => .ok (if b then 1 else 0)
  | _ => .error "TypeError: a number is required"

/-- Treat a value as an iterable list, as `for x in v` does. -/
def asList (v : PyVal) : Except String (List PyVal) :=
  match v with
  | .pylist xs => .ok xs
  | _ => .error "TypeError: object is not iterable"

/-- Zero-pad a natural number to width `w` (digits of dates/times). -/
def padNat (w : Nat) (n : Nat) : String :=
  let s := toString n
  (String.mk (List.replicate (w - s.length) '0')) ++ s

/-- A `datetime.datetime` value as produced by `datetime.now()`. -/
structure DateTime where
  year : Nat
  month : Nat
  day : Nat
  hour : Nat
  minute : Nat
  second : Nat
  microsecond : Nat

/-- Python `datetime.isoformat()`: `YYYY-MM-DDTHH:MM:SS[.ffffff]`, the
microsecond part omitted when it is zero. -/
def DateTime.isoformat (t : DateTime) : String :=
  padNat 4 t.year ++ "-" ++ padNat 2 t.month ++ "-" ++ padNat 2 t.day ++ "T" ++
    padNat 2 t.hour ++ ":" ++ padNat 2 t.minute ++ ":" ++ padNat 2 t.second ++
    (if t.microsecond == 0 then "" else "." ++ padNat 6 t.microsecond)

/-- One entry of `st.session_state.chat_history`: the dictionary
`{"timestamp": datetime.now(), "query": user_query, "response": response}`
appended on submission. -/
structure QueryRecord where
  timestamp : DateTime
  query : String
  response : Resp

/-- Python `v.get(k, default)` on a value expected to be a dict. -/
def valGetD (v : PyVal) (k : String) (d : PyVal) : Except String PyVal :=
  match v with
  | .pydict kvs => .ok (pyGetD kvs k d)
  | _ => .error "AttributeError: get"

/-- Python `v[k]` on a value expected to be a dict. -/
def valItem (v : PyVal) (k : String) : Except String PyVal :=
  match v with
  | .pydict kvs => getItem kvs k
  | _ => .error "TypeError: object is not subscriptable"

/-- Python `v.items()` on a value expected to be a dict. -/
def asDict (v : PyVal) : Except String (List (String × PyVal)) :=
  match v with
  | .pydict kvs => .ok kvs
  | _ => .error "AttributeError: items"

/-- Python `v == s` against a string literal. -/
def pyEqStr (v : PyVal) (s : String) : Bool :=
  match v with
  | .pystr t => t == s
  | _ => false

/-- The widgets the page emits, in order.  Each constructor records the
data interpolated into the widget; fixed surrounding text and emoji of the
source templates are kept where the spec mentions them. -/
inductive RenderItem where
  | errorBox (msg : PyVal)
  | suggestionInfo (s : PyVal)
  | successBox
  | metric (label : String) (emoji : String) (value : PyVal)
  | header (s : String)
  | write (v : PyVal)
  | markdownLine (s : String)
  | jsonView (v : PyVal)
  | stError (msg : String)
  | codeBlock (s : String)
  | expander (title : String) (items : List RenderItem)
  | statusLine (msg : PyVal)
  | successLine (recommendation confidence : PyVal)
  | failLine (msg : PyVal)
  | docLine (score : PyVal)

/-- Colour indicator of the Recommendation metric (line 232):
`"🟢" if recommendation == "BUY" else "🔴" if recommendation == "SELL"
else "🟡"`. -/
def recColor (v : PyVal) : String :=
  if pyEqStr v "BUY" then "🟢" else if pyEqStr v "SELL" then "🔴" else "🟡"

/-- Colour indicator of the Risk Level metric (line 242). -/
def riskEmoji (v : PyVal) : String :=
  if pyEqStr v "Low" then "🟢" else if pyEqStr v "Medium" then "🟡" else "🔴"

/-- The Detailed Analysis expander (lines 256-273). -/
def renderDetailed (response : Resp) : Except String (List RenderItem) := do
  let detailed := pyGetD response "detailed_analysis" (.pydict [])
  let agentOut ← valGet detailed "agent_outputs"
  let part1 ←
    if truthy agentOut then do
      let ao ← valItem detailed "agent_outputs"
      let kvs ← asDict ao
      pure (RenderItem.header "Agent Outputs" ::
        (kvs.map (fun kv => [RenderItem.markdownLine kv.1, RenderItem.jsonView kv.2])).flatten)
    else pure []
  let agentOutD ← valGetD detailed "agent_outputs" (.pydict [])
  let ragAgent ← valGetD agentOutD "RAG_AGENT" (.pydict [])
  let docsV ← valGet ragAgent "docs"
  let part2 ←
    if truthy docsV then do
      let ao ← valItem detailed "agent_outputs"
      let ra ← valItem ao "RAG_AGENT"
      let dv ← valItem ra "docs"
      let docs ← asList dv
      let rendered ← docs.mapM (fun doc => do
        let score ← valGetD doc "score" (.pystr "N/A")
        let text ← valGetD doc "text" (.pystr "")
        pure [RenderItem.docLine score, RenderItem.write text,
              RenderItem.markdownLine "---"])
      pure (RenderItem.header "📄 Retrieved Documents" :: rendered.flatten)
    else pure []
  pure [RenderItem.expander "🔬 Detailed Analysis" (part1 ++ part2)]

/-- Rendering of one backend response after submission (lines 219-273):
the failure branch shows the error box with the message and, when truthy,
the suggestion; the success branch shows the four metrics, the
explanation, the key factors and the detailed-analysis expander. -/
def renderResult (response : Resp) : Except String (List RenderItem) :=
  if !(truthy (pyGetD response "success" (.pybool false))) then
    .ok (RenderItem.errorBox (pyGetD response "message" (.pystr "Query failed")) ::
      (if truthy (pyGet response "suggestion") then
        [RenderItem.suggestionInfo (pyGet response "suggestion")] else []))
  else do
    let recommendation ← getItem response "recommendation"
    let color := recColor recommendation
    let confidence ← getItem response "confidence"
    let position ← getItem response "position_size"
    let risk ← getItem response "risk_level"
    let explanation ← getItem response "explanation"
    let factors ←
      if truthy (pyGet response "key_factors") then do
        let xs ← asList (pyGet response "key_factors")
        pure (RenderItem.header "🔑 Key Factors" :: xs.map RenderItem.write)
      else pure []
    let detailedItems ← renderDetailed response
    pure ([RenderItem.successBox,
      RenderItem.metric "Recommendation" color recommendation,
      RenderItem.metric "Confidence" "" confidence,
      RenderItem.metric "Position Size" "" position,
      RenderItem.metric "Risk Level" (riskEmoji risk) risk,
      RenderItem.header "📝 Explanation",
      RenderItem.write explanation] ++ factors ++ detailedItems)

/-- Python `traceback.format_exc()` of a raised exception, modelled as the trace
header followed by the exception text. -/
def formatExc (e : String) : String :=
  "Traceback (most recent call last): " ++ e

/-- One form submission with a nonempty query (lines 205-279): `backend`
is the result of the single `process_query_sync` call; on a normal return
the record is appended to the chat history and the response rendered; an
exception raised by the call or by the rendering is caught at the call
site and rendered as an error plus a collapsible traceback panel. -/
def handleSubmission (now : DateTime) (q : String) (backend : Except String Resp)
    (history : List QueryRecord) : List QueryRecord × List RenderItem :=
  match backend with
  | .error e =>
      (history,
       [RenderItem.stError ("❌ Error: " ++ e),
        RenderItem.expander "Error Details" [RenderItem.codeBlock (formatExc e)]])
  | .ok response =>
      let hist := history ++ [⟨now, q, response⟩]
      match renderResult response with
      | .ok items => (hist, items)
      | .error e =>
          (hist,
           [RenderItem.stError ("❌ Error: " ++ e),
            RenderItem.expander "Error Details" [RenderItem.codeBlock (formatExc e)]])

/-- The records of the Recent Queries panel (line 286):
`reversed(st.session_state.chat_history[-5:])`. -/
def recentQueries (h : List QueryRecord) : List QueryRecord :=
  (h.drop (h.length - 5)).reverse

/-- The body of one Recent Queries expander (lines 288-296). -/
def recentEntry (c : QueryRecord) : Except String (List RenderItem) := do
  if truthy (pyGet c.response "success") then do
    let recommendation ← getItem c.response "recommendation"
    let confidence ← getItem c.response "confidence"
    let explanation ← getItem c.response "explanation"
    pure [RenderItem.write (.pystr c.query), RenderItem.write recommendation,
      RenderItem.write confidence, RenderItem.write explanation]
  else
    pure [RenderItem.write (.pystr c.query),
      RenderItem.statusLine (pyGetD c.response "message" (.pystr "Failed"))]

/-- The `%Y-%m-%d %H:%M:%S` timestamp shown in the History tab (line 349). -/
def strftimeFull (t : DateTime) : String :=
  padNat 4 t.year ++ "-" ++ padNat 2 t.month ++ "-" ++ padNat 2 t.day ++ " " ++
    padNat 2 t.hour ++ ":" ++ padNat 2 t.minute ++ ":" ++ padNat 2 t.second

/-- One record of the History tab (lines 349-356). -/
def historyEntry (c : QueryRecord) : Except String (List RenderItem) := do
  if truthy (pyGet c.response "success") then do
    let recommendation ← getItem c.response "recommendation"
    let confidence ← getItem c.response "confidence"
    pure [RenderItem.markdownLine (strftimeFull c.timestamp),
      RenderItem.write (.pystr ("Q: " ++ c.query)),
      RenderItem.successLine recommendation confidence]
  else
    pure [RenderItem.markdownLine (strftimeFull c.timestamp),
      RenderItem.write (.pystr ("Q: " ++ c.query)),
      RenderItem.failLine (pyGetD c.response "message" (.pystr "Failed"))]

/-- The iteration order of the History tab (line 344):
`reversed(st.session_state.chat_history)`. -/
def historyIteration (h : List QueryRecord) : List QueryRecord := h.reverse

/-- The History tab body for a nonempty history (lines 344-362). -/
def historyTab (h : List QueryRecord) : Except String (List RenderItem) :=
  ((historyIteration h).mapM historyEntry).map List.flatten

/-- Dashboard filter of successful records (line 304):
`[c for c in chat_history if c['response'].get('success')]`. -/
def successful_queries (h : List QueryRecord) : List QueryRecord :=
  h.filter (fun c => truthy (pyGet c.response "success"))

/-- Dashboard success rate (line 315):
`(len(successful_queries) / len(chat_history) * 100) if chat_history
else 0`. -/
def success_rate (h : List QueryRecord) : ℚ :=
  if !h.isEmpty then ((successful_queries h).length : ℚ) / (h.length : ℚ) * 100
  else 0

/-- Rounding to one decimal place, as the `:.1f` format of line 316. -/
def round1 (q : ℚ) : ℚ := ((round (q * 10) : ℤ) : ℚ) / 10

/-- The value shown by the Success Rate metric (line 316). -/
def displayedSuccessRate (h : List QueryRecord) : ℚ := round1 (success_rate h)

/-- Average confidence over the successful records (lines 333-335),
computed only when at least one successful record exists; `none` means the
Average Confidence metric is not rendered. -/
def avgConfidence (h : List QueryRecord) : Except String (Option ℚ) :=
  let sq := successful_queries h
  if sq.isEmpty then .ok none
  else do
    let cs ← sq.mapM (fun c => do
      let v ← getItem c.response "confidence"
      asNum v)
    pure (some (cs.sum / (sq.length : ℚ)))

/-- The Average Confidence metric items (line 335): rendered only when
`avgConfidence` produces a value. -/
def avgConfidenceItems (h : List QueryRecord) : Except String (List RenderItem) :=
  (avgConfidence h).map (fun o =>
    match o with
    | none => []
    | some v => [RenderItem.metric "Average Confidence" "" (.pynum (round1 v))])

/-- One entry of the exported history (lines 366-370): the object
`{"timestamp": c['timestamp'].isoformat(), "query": c['query'],
"response": c['response']}`. -/
def exportEntry (c : QueryRecord) : Resp :=
  [("timestamp", .pystr c.timestamp.isoformat),
   ("query", .pystr c.query),
   ("response", .pydict c.response)]

/-- The exported history: the list comprehension over the stored chat
history (lines 366-372). -/
def exportHistory (h : List QueryRecord) : List Resp := h.map exportEntry

/-- The key of the `@st.cache_resource` memo table of lines 84-85:
the argument triple `(use_qdrant, qdrant_local, collection_name)`. -/
abbrev ConfigKey := Bool × Bool × String

/-- The `st.cache_resource` memo table: cached backend instances by
configuration key, plus a counter handing out fresh instance identities. -/
structure CacheState where
  entries : List (ConfigKey × Nat)
  nextId : Nat

/-- Lookup in the memo table. -/
def lookupCache (c : CacheState) (k : ConfigKey) : Option Nat :=
  (c.entries.find? (fun e => e.1 == k)).map (fun e => e.2)

/-- The Python `initialize_system` under `@st.cache_resource` (lines 84-97): a hit on
the argument triple returns the cached backend instance; a miss constructs
a new instance (the construction of the external `TradingAssistantSystem`
is modelled as a fresh identifier) and stores it under the triple. -/
def init_system (c : CacheState) (k : ConfigKey) : Nat × CacheState :=
  match lookupCache c k with
  | some i => (i, c)
  | none => (c.nextId, ⟨c.entries ++ [(k, c.nextId)], c.nextId + 1⟩)

/-- A run of initialization calls, threading the memo table; returns the
instance handed back by each call. -/
def runInit : CacheState → List ConfigKey → List Nat
  | _, [] => []
  | c, k :: ks =>
      let r := init_system c k
      r.1 :: runInit r.2 ks

/-- The user interactions that touch the chat history. -/
inductive Event where
  | submit (now : DateTime) (q : String) (backend : Except String Resp)
  | clearHistory

/-- The chat-history state transition: a submission appends via
`handleSubmission` (lines 205-216); the Clear Chat History button resets
the list to `[]` (lines 136-138). -/
def stepHistory (h : List QueryRecord) : Event → List QueryRecord
  | .submit now q backend => (handleSubmission now q backend h).1
  | .clearHistory => []

/-- A sample capture time used to instantiate the theorems below. -/
def dt0 : DateTime := ⟨2024, 1, 1, 12, 0, 0, 500⟩

lemma getItem_eq_ok (r : Resp) (k : String) (v : PyVal)
    (h : dictFind r k = some v) : getItem r k = .ok v := by
  simp [getItem, h]

lemma pyGetD_success_falsy (r : Resp)
    (hs : dictFind r "success" = none ∨
      ∃ v, dictFind r "success" = some v ∧ truthy v = false) :
    truthy (pyGetD r "success" (.pybool false)) = false := by
  rcases hs with hs | ⟨v, hv, htr⟩
  · simp [pyGetD, hs, truthy]
  · simp [pyGetD, hv, htr]

lemma pyGet_success_falsy (r : Resp)
    (hs : dictFind r "success" = none ∨
      ∃ v, dictFind r "success" = some v ∧ truthy v = false) :
    truthy (pyGet r "success") = false := by
  rcases hs with hs | ⟨v, hv, htr⟩
  · simp [pyGet, hs, truthy]
  · simp [pyGet, hv, htr]

/-- C3: for a backend response with `success == false` or `success`
absent, the UI renders the error box with `response.message` (default
`"Query failed"` when absent), renders the suggestion exactly when the
`suggestion` field is present and truthy, and renders none of the four
metrics. -/
theorem failure_branch_rendering (r : Resp)
    (hs : dictFind r "success" = none ∨ dictFind r "success" = some (.pybool false)) :
    renderResult r =
      .ok (RenderItem.errorBox (pyGetD r "message" (.pystr "Query failed")) ::
        (if truthy (pyGet r "suggestion") then
          [RenderItem.suggestionInfo (pyGet r "suggestion")] else [])) ∧
    (∀ items, renderResult r = .ok items →
      ((∃ s, RenderItem.suggestionInfo s ∈ items) ↔
        (∃ s, dictFind r "suggestion" = some s ∧ truthy s = true)) ∧
      (∀ lbl em v, RenderItem.metric lbl em v ∉ items)) := by
  have hs' : dictFind r "success" = none ∨
      ∃ v, dictFind r "success" = some v ∧ truthy v = false := by
    rcases hs with hs | hs
    · exact .inl hs
    · exact .inr ⟨_, hs, rfl⟩
  have hfalse := pyGetD_success_falsy r hs'
  have hmain : renderResult r =
      .ok (RenderItem.errorBox (pyGetD r "message" (.pystr "Query failed")) ::
        (if truthy (pyGet r "suggestion") then
          [RenderItem.suggestionInfo (pyGet r "suggestion")] else [])) := by
    simp [renderResult, hfalse]
  refine ⟨hmain, ?_⟩
  intro items hit
  rw [hmain] at hit
  have hitems := Except.ok.inj hit
  subst hitems
  constructor
  · constructor
    · rintro ⟨s, hmem⟩
      by_cases hsg : truthy (pyGet r "suggestion")
      · simp only [hsg, if_true, List.mem_cons, List.not_mem_nil, or_false] at hmem
        rcases hmem with hmem | hmem
        · cases hmem
        · cases hmem
          cases hd : dictFind r "suggestion" with
          | none =>
              rw [pyGet, hd] at hsg
              simp [truthy] at hsg
          | some w =>
              refine ⟨w, rfl, ?_⟩
              rw [pyGet, hd] at hsg
              simpa using hsg
      · simp only [hsg, if_false, List.mem_cons, List.not_mem_nil] at hmem
        rcases hmem with hmem | hmem
        · cases hmem
        · cases hmem
    · rintro ⟨s, hd, htr⟩
      have hsg : truthy (pyGet r "suggestion") = true := by
        rw [pyGet, hd]
        simpa using htr
      refine ⟨pyGet r "suggestion", ?_⟩
      simp [hsg]
  · intro lbl em v hmem
    by_cases hsg : truthy (pyGet r "suggestion") <;>
      simp [hsg, List.mem_cons] at hmem

/-- C3 witness: a concrete failing response with a truthy suggestion. -/
theorem failure_branch_rendering_witness :
    dictFind [("success", PyVal.pybool false), ("message", PyVal.pystr "no data"),
        ("suggestion", PyVal.pystr "try later")] "success" = some (.pybool false) ∧
    renderResult [("success", PyVal.pybool false), ("message", PyVal.pystr "no data"),
        ("suggestion", PyVal.pystr "try later")] =
      .ok [RenderItem.errorBox (.pystr "no data"),
        RenderItem.suggestionInfo (.pystr "try later")] := by
  refine ⟨rfl, ?_⟩
  have := (failure_branch_rendering
    [("success", PyVal.pybool false), ("message", PyVal.pystr "no data"),
      ("suggestion", PyVal.pystr "try later")] (.inr rfl)).1
  simpa [pyGetD, pyGet, dictFind, truthy] using this

/-- C9: a response whose `success` key is absent or maps to a falsy value
is classified as a failure by every display path: the submission branch
condition, the Recent Queries panel, the History tab, the dashboard filter
of successful records, and the submission rendering itself. -/
theorem falsy_success_classified_failure (r : Resp)
    (hs : dictFind r "success" = none ∨
      ∃ v, dictFind r "success" = some v ∧ truthy v = false) :
    truthy (pyGetD r "success" (.pybool false)) = false ∧
    truthy (pyGet r "success") = false ∧
    (∀ ts q, recentEntry ⟨ts, q, r⟩ =
      .ok [RenderItem.write (.pystr q),
        RenderItem.statusLine (pyGetD r "message" (.pystr "Failed"))]) ∧
    (∀ ts q, historyEntry ⟨ts, q, r⟩ =
      .ok [RenderItem.markdownLine (strftimeFull ts),
        RenderItem.write (.pystr ("Q: " ++ q)),
        RenderItem.failLine (pyGetD r "message" (.pystr "Failed"))]) ∧
    (∀ h ts q, (⟨ts, q, r⟩ : QueryRecord) ∉ successful_queries h) ∧
    renderResult r =
      .ok (RenderItem.errorBox (pyGetD r "message" (.pystr "Query failed")) ::
        (if truthy (pyGet r "suggestion") then
          [RenderItem.suggestionInfo (pyGet r "suggestion")] else [])) := by
  have h1 := pyGetD_success_falsy r hs
  have h2 := pyGet_success_falsy r hs
  refine ⟨h1, h2, ?_, ?_, ?_, ?_⟩
  · intro ts q
    simp [recentEntry, h2, pure, Except.pure]
  · intro ts q
    simp [historyEntry, h2, pure, Except.pure]
  · intro h ts q hmem
    rw [successful_queries, List.mem_filter] at hmem
    exact absurd hmem.2 (by simp [h2])
  · simp [renderResult, h1]

/-- C9 witness: a response with the `success` key absent. -/
theorem falsy_success_classified_failure_witness :
    truthy (pyGet [("message", PyVal.pystr "oops")] "success") = false ∧
    recentEntry ⟨dt0, "hi", [("message", PyVal.pystr "oops")]⟩ =
      .ok [RenderItem.write (.pystr "hi"), RenderItem.statusLine (.pystr "oops")] := by
  have h := falsy_success_classified_failure [("message", PyVal.pystr "oops")] (.inl rfl)
  refine ⟨h.2.1, ?_⟩
  have h3 := h.2.2.1 dt0 "hi"
  simpa [pyGetD, dictFind] using h3

/-- C2: for a nonempty chat history the displayed success-rate metric is
the count of records with a truthy `success` field, divided by the total
count, times 100, rounded to one decimal place; for an empty history the
success-rate value is 0. -/
theorem success_rate_spec (h : List QueryRecord) :
    (h ≠ [] → displayedSuccessRate h =
      round1 (((h.countP (fun c => truthy (pyGet c.response "success"))) : ℚ) /
        (h.length : ℚ) * 100)) ∧
    (h = [] → success_rate h = 0 ∧ displayedSuccessRate h = 0) := by
  constructor
  · intro hne
    have hie : h.isEmpty = false := by
      simpa [List.isEmpty_iff] using hne
    simp [displayedSuccessRate, success_rate, hie, successful_queries,
      List.countP_eq_length_filter]
  · intro he
    subst he
    simp [displayedSuccessRate, success_rate, round1]

/-- C2 witness: a two-record history with one successful record. -/
theorem success_rate_spec_witness :
    ([(⟨dt0, "a", [("success", PyVal.pybool true)]⟩ : QueryRecord),
      ⟨dt0, "b", [("success", PyVal.pybool false)]⟩] ≠ []) ∧
    displayedSuccessRate
      [⟨dt0, "a", [("success", PyVal.pybool true)]⟩,
       ⟨dt0, "b", [("success", PyVal.pybool false)]⟩] = 50 := by
  refine ⟨by simp, ?_⟩
  have h := (success_rate_spec
    [⟨dt0, "a", [("success", PyVal.pybool true)]⟩,
     ⟨dt0, "b", [("success", PyVal.pybool false)]⟩]).1 (by simp)
  rw [h]
  norm_num [List.countP, List.countP.go, pyGet, dictFind, truthy, round1]

/-- C8: the Recent Queries panel displays at most the 5 most recent
records, in most-recent-first order: it equals the first five elements of
the reversed history. -/
theorem recent_queries_last_five (h : List QueryRecord) :
    (recentQueries h).length ≤ 5 ∧ recentQueries h = h.reverse.take 5 := by
  have heq : recentQueries h = h.reverse.take 5 := by
    rw [recentQueries, List.reverse_drop]
    rcases Nat.le_total 5 h.length with h5 | h5
    · congr 1
      omega
    · have h0 : h.length - 5 = 0 := by omega
      rw [h0, Nat.sub_zero]
      rw [List.take_of_length_le (by simp), List.take_of_length_le (by simpa using h5)]
  refine ⟨?_, heq⟩
  rw [heq]
  exact List.length_take_le 5 h.reverse

lemma renderResult_ok_success (r : Resp) (v : PyVal) (items : List RenderItem)
    (hs : truthy (pyGetD r "success" (.pybool false)) = true)
    (hr : dictFind r "recommendation" = some v)
    (hok : renderResult r = .ok items) :
    ∃ rest, items = RenderItem.successBox ::
      RenderItem.metric "Recommendation" (recColor v) v :: rest := by
  rw [renderResult] at hok
  rw [hs] at hok
  simp only [Bool.not_true, Bool.false_eq_true, if_false,
    getItem_eq_ok r "recommendation" v hr] at hok
  cases hconf : getItem r "confidence" with
  | error e => rw [hconf] at hok; simp [bind, Except.bind] at hok
  | ok cv =>
  rw [hconf] at hok
  cases hpos : getItem r "position_size" with
  | error e => rw [hpos] at hok; simp [bind, Except.bind] at hok
  | ok pv =>
  rw [hpos] at hok
  cases hrisk : getItem r "risk_level" with
  | error e => rw [hrisk] at hok; simp [bind, Except.bind] at hok
  | ok kv =>
  rw [hrisk] at hok
  cases hexp : getItem r "explanation" with
  | error e => rw [hexp] at hok; simp [bind, Except.bind] at hok
  | ok ev =>
  rw [hexp] at hok
  simp only [bind, Except.bind] at hok
  by_cases hkf : truthy (pyGet r "key_factors") = true
  · rw [if_pos hkf] at hok
    cases hal : asList (pyGet r "key_factors") with
    | error e => rw [hal] at hok; simp [bind, Except.bind] at hok
    | ok xs =>
    rw [hal] at hok
    cases hdet : renderDetailed r with
    | error e =>
        rw [hdet] at hok
        simp [bind, Except.bind, pure, Except.pure] at hok
    | ok ds =>
    rw [hdet] at hok
    simp only [bind, Except.bind, pure, Except.pure, Except.ok.injEq] at hok
    exact ⟨_, hok.symm⟩
  · rw [if_neg hkf] at hok
    cases hdet : renderDetailed r with
    | error e =>
        rw [hdet] at hok
        simp [bind, Except.bind, pure, Except.pure] at hok
    | ok ds =>
    rw [hdet] at hok
    simp only [bind, Except.bind, pure, Except.pure, Except.ok.injEq] at hok
    exact ⟨_, hok.symm⟩

/-- C5: for a successful response whose recommendation is BUY, SELL or
HOLD, the rendered Recommendation metric carries the fixed colour
indicator: BUY is green, SELL is red, HOLD is yellow. -/
theorem recommendation_color_mapping (r : Resp) (v : PyVal) (items : List RenderItem)
    (hs : dictFind r "success" = some (.pybool true))
    (hr : dictFind r "recommendation" = some v)
    (hok : renderResult r = .ok items) :
    (v = .pystr "BUY" → RenderItem.metric "Recommendation" "🟢" v ∈ items) ∧
    (v = .pystr "SELL" → RenderItem.metric "Recommendation" "🔴" v ∈ items) ∧
    (v = .pystr "HOLD" → RenderItem.metric "Recommendation" "🟡" v ∈ items) := by
  have hs' : truthy (pyGetD r "success" (.pybool false)) = true := by
    simp [pyGetD, hs, truthy]
  obtain ⟨rest, hitems⟩ := renderResult_ok_success r v items hs' hr hok
  subst hitems
  refine ⟨?_, ?_, ?_⟩ <;> intro hv <;> subst hv <;>
    simp [recColor, pyEqStr, List.mem_cons]

/-- A successful sample response carrying every field the success branch
reads. -/
def respBUY : Resp :=
  [("success", .pybool true), ("recommendation", .pystr "BUY"),
   ("confidence", .pynum 80), ("position_size", .pystr "5 percent"),
   ("risk_level", .pystr "Low"), ("explanation", .pystr "strong momentum")]

/-- The items the success branch renders for `respBUY`. -/
def itemsBUY : List RenderItem :=
  [RenderItem.successBox,
   RenderItem.metric "Recommendation" "🟢" (.pystr "BUY"),
   RenderItem.metric "Confidence" "" (.pynum 80),
   RenderItem.metric "Position Size" "" (.pystr "5 percent"),
   RenderItem.metric "Risk Level" "🟢" (.pystr "Low"),
   RenderItem.header "📝 Explanation",
   RenderItem.write (.pystr "strong momentum"),
   RenderItem.expander "🔬 Detailed Analysis" []]

/-- C5 witness: the concrete BUY response renders the green indicator. -/
theorem recommendation_color_mapping_witness :
    (PyVal.pystr "BUY" = PyVal.pystr "BUY") ∧
    RenderItem.metric "Recommendation" "🟢" (.pystr "BUY") ∈ itemsBUY :=
  ⟨rfl, (recommendation_color_mapping respBUY (.pystr "BUY") itemsBUY rfl rfl rfl).1 rfl⟩

/-- C4: the chat history is append-only: a submission whose backend call
returns appends exactly one record at the end, a submission whose call
raises leaves the history unchanged, Clear Chat History empties the list,
no existing record is changed by any submission, and the History tab
iterates most-recent-first (the new record heads the displayed order). -/
theorem chat_history_append_only (h : List QueryRecord) (now : DateTime)
    (q : String) (r : Resp) (e : String) :
    stepHistory h (.submit now q (.ok r)) = h ++ [⟨now, q, r⟩] ∧
    stepHistory h (.submit now q (.error e)) = h ∧
    stepHistory h .clearHistory = [] ∧
    (∀ now2 q2 b2 i, i < h.length →
      (stepHistory h (.submit now2 q2 b2))[i]? = h[i]?) ∧
    historyIteration (h ++ [⟨now, q, r⟩]) =
      (⟨now, q, r⟩ : QueryRecord) :: historyIteration h := by
  have happend : ∀ now2 q2 r2, stepHistory h (.submit now2 q2 (.ok r2)) =
      h ++ [⟨now2, q2, r2⟩] := by
    intro now2 q2 r2
    cases hrr : renderResult r2 with
    | error e2 => simp [stepHistory, handleSubmission, hrr]
    | ok items => simp [stepHistory, handleSubmission, hrr]
  refine ⟨happend now q r, rfl, rfl, ?_, ?_⟩
  · intro now2 q2 b2 i hi
    cases b2 with
    | error e2 => rfl
    | ok r2 =>
        rw [happend now2 q2 r2]
        exact List.getElem?_append_left hi
  · simp [historyIteration]

/-- C4 witness: a singleton history, one more successful submission. -/
theorem chat_history_append_only_witness :
    (0 < [(⟨dt0, "a", []⟩ : QueryRecord)].length) ∧
    (stepHistory [⟨dt0, "a", []⟩]
      (.submit dt0 "b" (.ok [("success", PyVal.pybool false)])))[0]? =
      [(⟨dt0, "a", []⟩ : QueryRecord)][0]? :=
  ⟨by simp,
    (chat_history_append_only [⟨dt0, "a", []⟩] dt0 "b"
      [("success", PyVal.pybool false)] "err").2.2.2.1 dt0 "b"
      (.ok [("success", PyVal.pybool false)]) 0 (by simp)⟩

/-- C7: a raised exception — from the backend call or from the subsequent
rendering — is caught at the call site and rendered as the error message
plus the full traceback inside the collapsible Error Details panel; the
call is not retried. -/
theorem exception_caught_and_rendered (now : DateTime) (q : String)
    (h : List QueryRecord) (e : String) (r : Resp) :
    handleSubmission now q (.error e) h =
      (h, [RenderItem.stError ("❌ Error: " ++ e),
        RenderItem.expander "Error Details" [RenderItem.codeBlock (formatExc e)]]) ∧
    (renderResult r = .error e →
      handleSubmission now q (.ok r) h =
        (h ++ [⟨now, q, r⟩],
         [RenderItem.stError ("❌ Error: " ++ e),
          RenderItem.expander "Error Details" [RenderItem.codeBlock (formatExc e)]])) := by
  refine ⟨rfl, ?_⟩
  intro hre
  simp [handleSubmission, hre]

/-- C7 witness: a response claiming success but missing the
recommendation field makes the rendering raise a `KeyError`, which is
rendered as the error plus the traceback panel. -/
theorem exception_caught_and_rendered_witness :
    renderResult [("success", PyVal.pybool true)] =
      .error "KeyError: recommendation" ∧
    handleSubmission dt0 "q" (.ok [("success", PyVal.pybool true)]) [] =
      ([⟨dt0, "q", [("success", PyVal.pybool true)]⟩],
       [RenderItem.stError ("❌ Error: " ++ "KeyError: recommendation"),
        RenderItem.expander "Error Details"
          [RenderItem.codeBlock (formatExc "KeyError: recommendation")]]) :=
  ⟨rfl, (exception_caught_and_rendered dt0 "q" []
    "KeyError: recommendation" [("success", PyVal.pybool true)]).2 rfl⟩

/-- C10: the Average Confidence metric is guarded by the successful-record
filter: a history with no successful record renders no such metric, and
whenever a value is produced it is the sum of the confidences of the
successful records divided by their (positive) count. -/
theorem avg_confidence_guarded (h : List QueryRecord) :
    (successful_queries h = [] →
      avgConfidence h = .ok none ∧ avgConfidenceItems h = .ok []) ∧
    (∀ v, avgConfidence h = .ok (some v) →
      0 < (successful_queries h).length ∧
      ∃ cs, (successful_queries h).mapM (fun c => do
          let w ← getItem c.response "confidence"
          asNum w) = .ok cs ∧
        v = cs.sum / ((successful_queries h).length : ℚ)) := by
  constructor
  · intro hsq
    constructor
    · simp [avgConfidence, hsq]
    · simp [avgConfidenceItems, avgConfidence, hsq, Except.map]
  · intro v hok
    rw [avgConfidence] at hok
    by_cases he : (successful_queries h).isEmpty
    · rw [if_pos he] at hok
      simp at hok
    · rw [if_neg he] at hok
      have hlen : 0 < (successful_queries h).length := by
        rcases List.isEmpty_iff.not.mp he |> List.length_pos_of_ne_nil with hp
        exact hp
      refine ⟨hlen, ?_⟩
      cases hm : (successful_queries h).mapM (fun c => do
          let w ← getItem c.response "confidence"
          asNum w) with
      | error e2 => rw [hm] at hok; simp [bind, Except.bind] at hok
      | ok cs =>
          rw [hm] at hok
          simp only [bind, Except.bind, pure, Except.pure, Except.ok.injEq,
            Option.some.injEq] at hok
          exact ⟨cs, rfl, hok.symm⟩

/-- C10 witness: a history with no successful record renders no Average
Confidence metric; one with a single successful record has a positive
divisor. -/
theorem avg_confidence_guarded_witness :
    (successful_queries [(⟨dt0, "a", [("success", PyVal.pybool false)]⟩ : QueryRecord)] = []) ∧
    avgConfidence [(⟨dt0, "a", [("success", PyVal.pybool false)]⟩ : QueryRecord)] = .ok none ∧
    0 < (successful_queries
      [(⟨dt0, "b", [("success", PyVal.pybool true),
        ("confidence", PyVal.pynum 80)]⟩ : QueryRecord)]).length := by
  refine ⟨rfl, ?_, ?_⟩
  · exact ((avg_confidence_guarded
      [(⟨dt0, "a", [("success", PyVal.pybool false)]⟩ : QueryRecord)]).1 rfl).1
  · have hok : avgConfidence
        [(⟨dt0, "b", [("success", PyVal.pybool true),
          ("confidence", PyVal.pynum 80)]⟩ : QueryRecord)] = .ok (some 80) := by
      rw [avgConfidence]
      simp [successful_queries, List.filter, pyGet, dictFind, truthy,
        getItem, asNum, bind, Except.bind, pure, Except.pure,
        List.mapM, List.mapM.loop, List.find?]
    exact ((avg_confidence_guarded
      [(⟨dt0, "b", [("success", PyVal.pybool true),
        ("confidence", PyVal.pynum 80)]⟩ : QueryRecord)]).2 80 hok).1

/-- C1: the exported history has one entry per stored record, in order;
each entry is the object whose `timestamp` is the ISO-8601 string of the
record's capture time and whose `query` and `response` fields look up to
the stored query and response unchanged. -/
theorem export_roundtrip (h : List QueryRecord) (i : Nat) (hi : i < h.length) :
    (exportHistory h).length = h.length ∧
    ∃ c, h[i]? = some c ∧
      (exportHistory h)[i]? = some (exportEntry c) ∧
      dictFind (exportEntry c) "timestamp" = some (.pystr c.timestamp.isoformat) ∧
      dictFind (exportEntry c) "query" = some (.pystr c.query) ∧
      dictFind (exportEntry c) "response" = some (.pydict c.response) := by
  refine ⟨by simp [exportHistory], ?_⟩
  refine ⟨h[i], List.getElem?_eq_getElem hi, ?_, rfl, ?_, ?_⟩
  · rw [exportHistory, List.getElem?_map, List.getElem?_eq_getElem hi]
    rfl
  · rfl
  · rfl

/-- C1 witness: a one-record history exports that record's data. -/
theorem export_roundtrip_witness :
    (0 < [(⟨dt0, "buy tesla", [("success", PyVal.pybool true)]⟩ : QueryRecord)].length) ∧
    ∃ c, [(⟨dt0, "buy tesla", [("success", PyVal.pybool true)]⟩ : QueryRecord)][0]? = some c ∧
      (exportHistory [⟨dt0, "buy tesla", [("success", PyVal.pybool true)]⟩])[0]? =
        some (exportEntry c) ∧
      dictFind (exportEntry c) "timestamp" = some (.pystr c.timestamp.isoformat) ∧
      dictFind (exportEntry c) "query" = some (.pystr c.query) ∧
      dictFind (exportEntry c) "response" = some (.pydict c.response) :=
  ⟨by simp,
    (export_roundtrip [⟨dt0, "buy tesla", [("success", PyVal.pybool true)]⟩] 0 (by simp)).2⟩

lemma lookupCache_init_self (c : CacheState) (k : ConfigKey) :
    lookupCache (init_system c k).2 k = some (init_system c k).1 := by
  cases hl : lookupCache c k with
  | some i => simp [init_system, hl]
  | none =>
      have hf : c.entries.find? (fun e => e.1 == k) = none := by
        rw [lookupCache] at hl
        rcases hr : c.entries.find? (fun e => e.1 == k) with _ | e
        · exact hr
        · rw [hr] at hl
          simp at hl
      simp only [init_system, hl]
      rw [lookupCache]
      simp only [List.find?_append, hf, Option.none_or]
      rw [List.find?_cons_of_pos _ (by simp)]
      rfl

lemma lookupCache_mono (c : CacheState) (a b : ConfigKey) (v : Nat)
    (h : lookupCache c a = some v) :
    lookupCache (init_system c b).2 a = some v := by
  cases hl : lookupCache c b with
  | some i => simpa [init_system, hl] using h
  | none =>
      rcases hr : c.entries.find? (fun e => e.1 == a) with _ | e
      · rw [lookupCache, hr] at h
        simp at h
      · simp only [init_system, hl]
        rw [lookupCache]
        simp only [List.find?_append, hr, Option.or_some]
        rw [lookupCache, hr] at h
        exact h

lemma runInit_lookup (ks : List ConfigKey) :
    ∀ (c : CacheState) (k : ConfigKey) (v p : Nat),
      lookupCache c k = some v → ks[p]? = some k →
      (runInit c ks)[p]? = some v := by
  induction ks with
  | nil =>
      intro c k v p _ hp
      simp at hp
  | cons k2 ks ih =>
      intro c k v p hl hp
      cases p with
      | zero =>
          simp only [List.getElem?_cons_zero, Option.some.injEq] at hp
          subst hp
          simp [runInit, init_system, hl]
      | succ p2 =>
          simp only [List.getElem?_cons_succ] at hp
          simp only [runInit, List.getElem?_cons_succ]
          exact ih _ k v p2 (lookupCache_mono c k k2 v hl) hp

/-- C6: the backend is a cached singleton keyed by the configuration
triple: in any run of initialization calls, two calls made with equal
`(use_qdrant, qdrant_local, collection_name)` arguments return the same
backend instance rather than constructing a new one. -/
theorem cached_singleton_backend (c0 : CacheState) (ks : List ConfigKey)
    (k : ConfigKey) (i j : Nat) (hij : i < j)
    (hi : ks[i]? = some k) (hj : ks[j]? = some k) :
    ∃ v, (runInit c0 ks)[i]? = some v ∧ (runInit c0 ks)[j]? = some v := by
  induction ks generalizing c0 i j with
  | nil => simp at hi
  | cons k2 ks ih =>
      cases i with
      | zero =>
          simp only [List.getElem?_cons_zero, Option.some.injEq] at hi
          subst hi
          cases j with
          | zero => omega
          | succ j2 =>
              simp only [List.getElem?_cons_succ] at hj
              refine ⟨(init_system c0 k2).1, by simp [runInit], ?_⟩
              simp only [runInit, List.getElem?_cons_succ]
              exact runInit_lookup ks (init_system c0 k2).2 k2
                (init_system c0 k2).1 j2 (lookupCache_init_self c0 k2) hj
      | succ i2 =>
          cases j with
          | zero => omega
          | succ j2 =>
              simp only [List.getElem?_cons_succ] at hi hj
              obtain ⟨v, h1, h2⟩ :=
                ih (init_system c0 k2).2 i2 j2 (by omega) hi hj
              refine ⟨v, ?_, ?_⟩
              · simpa only [runInit, List.getElem?_cons_succ] using h1
              · simpa only [runInit, List.getElem?_cons_succ] using h2

/-- C6 witness: the first and third call use the same configuration
triple, with a different triple in between, starting from an empty memo
table. -/
theorem cached_singleton_backend_witness :
    ((0:Nat) < 2) ∧
    ∃ v, (runInit ⟨[], 0⟩ [(true, true, "trading_knowledge"),
        (false, true, "other"), (true, true, "trading_knowledge")])[0]? = some v ∧
      (runInit ⟨[], 0⟩ [(true, true, "trading_knowledge"),
        (false, true, "other"), (true, true, "trading_knowledge")])[2]? = some v :=
  ⟨by omega,
    cached_singleton_backend ⟨[], 0⟩
      [(true, true, "trading_knowledge"), (false, true, "other"),
        (true, true, "trading_knowledge")]
      (true, true, "trading_knowledge") 0 2 (by omega) rfl rfl⟩

end TradingApp
